import Mathlib

/-!
Verification of the client-side session lifecycle core of the
shopstore-frontend repository: token storage (`src/utilities/tokenStorage.ts`),
the Redux auth slice (`src/redux/slices/authSlice.ts`), the auth thunks
(`src/redux/thunks/authThunks.ts`), and the Apollo auth/error links.

The TypeScript is shallowly embedded: `localStorage` becomes an explicit
`TokenStore` record, the Redux store becomes an explicit `AuthState` value
threaded through the thunks, and each `await`ed Apollo call becomes a
parameter describing its outcome (resolved data plus an optional GraphQL
error list, or a thrown transport error), so that a thunk is a pure function
of its pre-state and the network outcome.
-/

namespace ShopStore

/-! ## Token storage (`src/utilities/tokenStorage.ts`)

`localStorage` restricted to the three fixed `StorageKey` slots the module
uses (`ACCESS_TOKEN`, `REFRESH_TOKEN`, `USER_DATA`); `getItem` returning
`string | null` becomes `Option String`. -/

structure TokenStore where
  accessToken : Option String
  refreshToken : Option String
  userData : Option String
  deriving DecidableEq, Repr

/-- Source `saveTokens(accessToken, refreshToken)`: `setItem` on the two token slots. -/
def saveTokens (s : TokenStore) (accessToken refreshToken : String) : TokenStore :=
  { s with accessToken := some accessToken, refreshToken := some refreshToken }

/-- Source `getAccessToken()`: `localStorage.getItem(StorageKey.ACCESS_TOKEN)`. -/
def getAccessToken (s : TokenStore) : Option String :=
  s.accessToken

/-- Source `getRefreshToken()`. -/
def getRefreshToken (s : TokenStore) : Option String :=
  s.refreshToken

/-- Source `clearTokens()`: `removeItem` on all three slots. -/
def clearTokens (_s : TokenStore) : TokenStore :=
  { accessToken := none, refreshToken := none, userData := none }

/-! `isTokenExpired(token)` runs
`JSON.parse(atob(token.split('.')[1]))` inside a `try`, reads `payload.exp`,
and evaluates `Date.now() >= payload.exp * 1000`. The decode pipeline is
embedded by its outcome: either the `try` body throws while decoding
(`.failure` — no `.` separator worth of payload, bad base64, bad JSON), or it
yields a parsed object whose `exp` member is a number (`.success (some e)`,
seconds) or absent (`.success none`, i.e. `undefined` in JS). -/

inductive PayloadDecode where
  /-- Source `atob`/`JSON.parse` threw: the string is not a well-formed token. -/
  | failure : PayloadDecode
  /-- The payload segment parsed; `exp` holds its numeric expiry claim in
  seconds, or is `none` when the parsed object has no `exp` member. -/
  | success (exp : Option Int) : PayloadDecode
  deriving DecidableEq, Repr

/-- JS `x * 1000` on `payload.exp`: `undefined * 1000` is `NaN`, modelled as
`none`. -/
def jsTimes1000 (exp : Option Int) : Option Int :=
  exp.map (fun e => e * 1000)

/-- JS `now >= y` where `y` may be `NaN` (`none`): any comparison with `NaN`
is `false`. -/
def jsGe (now : Int) (y : Option Int) : Bool :=
  match y with
  | some v => decide (v ≤ now)
  | none => false

/-- Source `isTokenExpired(token)`: `try { return Date.now() >= payload.exp * 1000 }
catch { return true }`, as a function of the decode outcome of `token` and of
`Date.now()` (milliseconds). -/
def isTokenExpired (d : PayloadDecode) (now : Int) : Bool :=
  match d with
  | .success exp => jsGe now (jsTimes1000 exp)
  | .failure => true

/-! ## Auth slice (`src/redux/slices/authSlice.ts`) -/

inductive AuthStatus where
  | IDLE
  | LOADING
  | AUTHENTICATED
  | UNAUTHENTICATED
  | ERROR
  deriving DecidableEq, Repr

inductive AuthErrorType where
  | INVALID_CREDENTIALS
  | NETWORK_ERROR
  | UNKNOWN
  deriving DecidableEq, Repr

structure User where
  id : Int
  email : String
  name : String
  status : String
  createdAt : String
  deriving DecidableEq, Repr

structure AuthError where
  type : AuthErrorType
  message : String
  deriving DecidableEq, Repr

structure AuthState where
  user : Option User
  accessToken : Option String
  refreshToken : Option String
  status : AuthStatus
  error : Option AuthError
  deriving DecidableEq, Repr

/-- The slice's `initialState`. -/
def initialState : AuthState :=
  { user := none
    accessToken := none
    refreshToken := none
    status := AuthStatus.IDLE
    error := none }

/-- Reducer `setUser`: `state.user = action.payload; state.status = AUTHENTICATED`. -/
def setUser (s : AuthState) (payload : User) : AuthState :=
  { s with user := some payload, status := AuthStatus.AUTHENTICATED }

/-- Reducer `setTokens`: sets both token fields from the payload. -/
def setTokens (s : AuthState) (accessToken refreshToken : String) : AuthState :=
  { s with accessToken := some accessToken, refreshToken := some refreshToken }

/-- Reducer `clearAuth`: nulls user/tokens/error, `status = UNAUTHENTICATED`. -/
def clearAuth (s : AuthState) : AuthState :=
  { s with
    user := none
    accessToken := none
    refreshToken := none
    status := AuthStatus.UNAUTHENTICATED
    error := none }

/-- Reducer `setError`: `state.error = action.payload; state.status = ERROR`. -/
def setError (s : AuthState) (payload : AuthError) : AuthState :=
  { s with error := some payload, status := AuthStatus.ERROR }

/-- Reducer `setStatus`: `state.status = action.payload`. -/
def setStatus (s : AuthState) (payload : AuthStatus) : AuthState :=
  { s with status := payload }

/-- Selector `selectIsAuthenticated`:
`state.auth.status === AuthStatus.AUTHENTICATED && state.auth.user !== null`. -/
def selectIsAuthenticated (s : AuthState) : Bool :=
  decide (s.status = AuthStatus.AUTHENTICATED) && s.user.isSome

/-! ## Apollo auth link (`src/apollo/authLink.ts`) -/

/-- The string values of the TS string enum `GraphQLErrorCode`. -/
def GraphQLErrorCode.UNAUTHENTICATED : String := "UNAUTHENTICATED"

def GraphQLErrorCode.FORBIDDEN : String := "FORBIDDEN"

def GraphQLErrorCode.BAD_USER_INPUT : String := "BAD_USER_INPUT"

def GraphQLErrorCode.INTERNAL_SERVER_ERROR : String := "INTERNAL_SERVER_ERROR"

/-- JS truthiness of a `string | null` value, as used by `if (token)` in
`authLink` and `if (!token)` in `initializeAuth`: `null` and the empty string
are falsy, every other string is truthy. -/
def jsTruthy : Option String → Bool
  | none => false
  | some s => !s.isEmpty

/-- Request headers as a key-value list; `typedHeaders.authorization = v`
overwrites any existing entry for the key. -/
def setHeader (headers : List (String × String)) (k v : String) :
    List (String × String) :=
  (headers.filter (fun p => p.1 ≠ k)) ++ [(k, v)]

/-- Header lookup. -/
def getHeader (headers : List (String × String)) (k : String) : Option String :=
  (headers.find? (fun p => p.1 = k)).map Prod.snd

/-- Source `authLink`: `const token = getAccessToken(); if (token)
typedHeaders.authorization = Bearer token;` — returns the outgoing headers
built from the incoming ones. -/
def authLink (store : TokenStore) (headers : List (String × String)) :
    List (String × String) :=
  let token := getAccessToken store
  if jsTruthy token then
    setHeader headers "authorization" ("Bearer " ++ token.getD "")
  else
    headers

/-! ## Apollo error link (`src/apollo/errorLink.ts`)

A `GraphQLError` as the link inspects it: its `message` and
`extensions?.code`; `code` is `none` when `extensions` is absent or has no
`code` member. -/

structure GraphQLError where
  message : String
  code : Option String
  deriving DecidableEq, Repr

/-- Source `isAuthError(errors)`: `errors.some(e => e.extensions?.code ===
UNAUTHENTICATED || e.extensions?.code === FORBIDDEN)`. -/
def isAuthError (errors : List GraphQLError) : Bool :=
  errors.any fun e =>
    decide (e.code = some GraphQLErrorCode.UNAUTHENTICATED) ||
    decide (e.code = some GraphQLErrorCode.FORBIDDEN)

/-- Source `errorLink = onError(({ graphQLErrors, networkError }) => ...)`:
when `graphQLErrors` is present and `isAuthError` holds, it runs
`clearTokens(); store.dispatch(clearAuth())`; every other branch only calls
`console.error` and leaves the state alone. Returns the (token store, auth
state) pair after the handler. -/
def errorLink (graphQLErrors : Option (List GraphQLError))
    (networkError : Option String) (store : TokenStore) (auth : AuthState) :
    TokenStore × AuthState :=
  match graphQLErrors, networkError with
  | some errs, _ =>
    if isAuthError errs then
      (clearTokens store, clearAuth auth)
    else
      (store, auth)
  | none, _ => (store, auth)

/-! ## Auth thunks (`src/redux/thunks/authThunks.ts`)

`apolloClient.mutate` / `apolloClient.query` are embedded by their outcome:
`.resolved data errors` when the promise resolves to `{ data, errors }`
(`errors` is `undefined` or an array of GraphQL errors), `.thrown message`
when it rejects and control jumps to the `catch` block with
`error.message = message` (the empty string stands for a missing message, so
that `error.message || fallback` becomes an `isEmpty` test). -/

inductive ApolloOutcome (α : Type) where
  | resolved (data : α) (errors : Option (List GraphQLError)) : ApolloOutcome α
  | thrown (message : String) : ApolloOutcome α
  deriving DecidableEq, Repr

/-- The `data.login` / `data.register` payload: `{ user, accessToken }`. -/
structure AuthPayload where
  user : User
  accessToken : String
  deriving DecidableEq, Repr

/-- Source `if (errors && errors.length > 0)` on the resolved `errors` field. -/
def hasErrors (errors : Option (List GraphQLError)) : Bool :=
  match errors with
  | some l => decide (l.length > 0)
  | none => false

/-- Source `errors[0].message` (with `""` for the out-of-bounds `undefined` case the
guard rules out). -/
def firstErrorMessage (errors : Option (List GraphQLError)) : String :=
  match errors with
  | some (e :: _) => e.message
  | _ => ""

/-- Source `error.message || fallback`. -/
def jsMessageOr (message fallback : String) : String :=
  if message.isEmpty then fallback else message

/-- Result of running a thunk: the token store and auth state after all
dispatches, plus the thunk's return value (`Except` for
`rejectWithValue`). -/
structure ThunkResult (α : Type) where
  store : TokenStore
  auth : AuthState
  value : Except String α
  deriving Repr

/-- Source `loginUser` thunk: dispatch `setStatus(LOADING)`; await the login
mutation; on a non-empty `errors` array dispatch an `INVALID_CREDENTIALS`
error and reject; on success `saveTokens(accessToken, '')`, dispatch
`setTokens` and `setUser`, return the user; on a thrown error dispatch a
`NETWORK_ERROR` and reject. -/
def loginUser (outcome : ApolloOutcome AuthPayload) (store : TokenStore)
    (auth : AuthState) : ThunkResult User :=
  let auth := setStatus auth AuthStatus.LOADING
  match outcome with
  | .resolved data errors =>
    if hasErrors errors then
      let errorMessage := firstErrorMessage errors
      { store := store
        auth := setError auth
          { type := AuthErrorType.INVALID_CREDENTIALS, message := errorMessage }
        value := Except.error errorMessage }
    else
      let store := saveTokens store data.accessToken ""
      let auth := setTokens auth data.accessToken ""
      let auth := setUser auth data.user
      { store := store, auth := auth, value := Except.ok data.user }
  | .thrown message =>
    let errorMessage := jsMessageOr message "Login failed"
    { store := store
      auth := setError auth
        { type := AuthErrorType.NETWORK_ERROR, message := errorMessage }
      value := Except.error errorMessage }

/-- Source `registerUser` thunk: dispatch `setStatus(LOADING)`; await the register
mutation; on a non-empty `errors` array dispatch an `INVALID_CREDENTIALS`
error and reject; on success dispatch only `setStatus(UNAUTHENTICATED)` —
no tokens are saved and no user is set — and return the created user; on a
thrown error dispatch a `NETWORK_ERROR` and reject. -/
def registerUser (outcome : ApolloOutcome AuthPayload) (store : TokenStore)
    (auth : AuthState) : ThunkResult User :=
  let auth := setStatus auth AuthStatus.LOADING
  match outcome with
  | .resolved data errors =>
    if hasErrors errors then
      let errorMessage := firstErrorMessage errors
      { store := store
        auth := setError auth
          { type := AuthErrorType.INVALID_CREDENTIALS, message := errorMessage }
        value := Except.error errorMessage }
    else
      { store := store
        auth := setStatus auth AuthStatus.UNAUTHENTICATED
        value := Except.ok data.user }
  | .thrown message =>
    let errorMessage := jsMessageOr message "Registration failed"
    { store := store
      auth := setError auth
        { type := AuthErrorType.NETWORK_ERROR, message := errorMessage }
      value := Except.error errorMessage }

/-- Source `logoutUser` thunk: awaits the logout mutation inside a `try` whose
`catch` only logs; then, on either path, `clearTokens();
dispatch(clearAuth())`. The mutation's resolved value is never inspected. -/
def logoutUser (outcome : ApolloOutcome Unit) (store : TokenStore)
    (auth : AuthState) : TokenStore × AuthState :=
  match outcome with
  | .resolved _ _ => (clearTokens store, clearAuth auth)
  | .thrown _ => (clearTokens store, clearAuth auth)

/-- Result of `initializeAuth`, with a count of Apollo calls made. -/
structure InitResult where
  store : TokenStore
  auth : AuthState
  networkCalls : Nat
  value : Option User
  deriving Repr

/-- Source `initializeAuth` thunk: `const token = getAccessToken(); if (!token) {
dispatch(setStatus(UNAUTHENTICATED)); return null; }` — otherwise dispatch
`setTokens(token, '')` and await the `me` query: on success dispatch
`setUser(data.me)` and return it, on a thrown error `clearTokens();
dispatch(clearAuth()); return null`. `meOutcome` is the outcome of the `me`
query in the branch that performs it; a thrown GraphQL-error response and a
network failure both reject `apolloClient.query`, so both are `.thrown`. -/
def initializeAuth (meOutcome : ApolloOutcome User) (store : TokenStore)
    (auth : AuthState) : InitResult :=
  let token := getAccessToken store
  if !jsTruthy token then
    { store := store
      auth := setStatus auth AuthStatus.UNAUTHENTICATED
      networkCalls := 0
      value := none }
  else
    let auth := setTokens auth (token.getD "") ""
    match meOutcome with
    | .resolved me _ =>
      { store := store
        auth := setUser auth me
        networkCalls := 1
        value := some me }
    | .thrown _ =>
      { store := clearTokens store
        auth := clearAuth auth
        networkCalls := 1
        value := none }

/-! ## Spec-side invariants and sample values -/

/-- The Session invariant as the spec §3 words it: `status == AUTHENTICATED`
holds iff `user != null` and no unresolved ERROR is pending (modelled as
`error == null`). -/
abbrev specSessionInvariant (s : AuthState) : Prop :=
  s.status = AuthStatus.AUTHENTICATED ↔ (s.user ≠ none ∧ s.error = none)

/-- The one-way invariant actually maintained by the non-`setStatus`
reducers: an AUTHENTICATED state has a non-null user. -/
abbrev authUserInvariant (s : AuthState) : Prop :=
  s.status = AuthStatus.AUTHENTICATED → s.user ≠ none

def sampleUser : User :=
  { id := 1, email := "a@x.com", name := "A", status := "ACTIVE",
    createdAt := "2024-01-01" }

def sampleError : AuthError :=
  { type := AuthErrorType.UNKNOWN, message := "boom" }

def sampleStore : TokenStore :=
  { accessToken := some "tok", refreshToken := some "", userData := none }

def emptyStore : TokenStore :=
  { accessToken := none, refreshToken := none, userData := none }

def sampleAuth : AuthState :=
  { user := some sampleUser, accessToken := some "tok", refreshToken := some "",
    status := AuthStatus.AUTHENTICATED, error := none }

def samplePayload : AuthPayload :=
  { user := sampleUser, accessToken := "tok2" }

def sampleGraphQLError : GraphQLError :=
  { message := "Invalid credentials", code := some "BAD_USER_INPUT" }

/-! ## Claims -/

/-- C1 counterexample: the full iff-invariant of §3 is not preserved by the
transition operations. Starting from `initialState` (which satisfies it),
`setStatus AUTHENTICATED` yields a state with status AUTHENTICATED and
`user == null`; and starting from a state with a pending error (which
satisfies it), `setUser` yields status AUTHENTICATED with the error still
unresolved. -/
theorem sessionInvariant_not_preserved :
    (specSessionInvariant initialState ∧
      ¬ specSessionInvariant (setStatus initialState AuthStatus.AUTHENTICATED)) ∧
    (specSessionInvariant (setError initialState sampleError) ∧
      ¬ specSessionInvariant
          (setUser (setError initialState sampleError) sampleUser)) := by
  decide

/-- C1 (amended): the one-way invariant `status == AUTHENTICATED → user !=
null` is preserved by `setUser`, `setTokens`, `clearAuth` and `setError`
from any state satisfying it; `setStatus` is the only reducer that can
break it, and `setUser` does not resolve a pending error, so the error
clause of the spec's iff is not maintained. -/
theorem authUserInvariant_preserved (s : AuthState) (u : User) (a r : String)
    (e : AuthError) (h : authUserInvariant s) :
    authUserInvariant (setUser s u) ∧ authUserInvariant (setTokens s a r) ∧
    authUserInvariant (clearAuth s) ∧ authUserInvariant (setError s e) := by
  refine ⟨?_, ?_, ?_, ?_⟩
  · intro _
    simp [setUser]
  · intro hst
    exact h hst
  · intro hst
    simp [clearAuth] at hst
  · intro hst
    simp [setError] at hst

/-- C1 witness: the amended preservation applied at `initialState`. -/
theorem authUserInvariant_preserved_app :
    authUserInvariant initialState ∧
    (authUserInvariant (setUser initialState sampleUser) ∧
     authUserInvariant (setTokens initialState "tok" "") ∧
     authUserInvariant (clearAuth initialState) ∧
     authUserInvariant (setError initialState sampleError)) :=
  ⟨by decide,
   authUserInvariant_preserved initialState sampleUser "tok" "" sampleError
     (by decide)⟩

/-- C2: whatever the remote logout call does — resolve (with or without
GraphQL errors) or throw — `logoutUser` ends with all three TokenStore slots
removed and the auth state reset to UNAUTHENTICATED with user, tokens and
error null. -/
theorem logoutUser_unconditional_cleanup (outcome : ApolloOutcome Unit)
    (store : TokenStore) (auth : AuthState) :
    logoutUser outcome store auth =
      ({ accessToken := none, refreshToken := none, userData := none },
       { user := none, accessToken := none, refreshToken := none,
         status := AuthStatus.UNAUTHENTICATED, error := none }) := by
  cases outcome <;> rfl

/-- C3: a response whose GraphQL error list contains at least one error with
code UNAUTHENTICATED or FORBIDDEN makes `errorLink` perform exactly the
teardown `logoutUser` performs, whatever call produced it; a response whose
errors carry no such code, or a pure network error, leaves the token store
and auth state unchanged. -/
theorem errorLink_teardown_exactly_on_auth_codes (errs : List GraphQLError)
    (networkError : Option String) (netMsg : String)
    (store : TokenStore) (auth : AuthState) :
    ((∃ e ∈ errs, e.code = some GraphQLErrorCode.UNAUTHENTICATED ∨
        e.code = some GraphQLErrorCode.FORBIDDEN) →
      errorLink (some errs) networkError store auth =
        logoutUser (ApolloOutcome.resolved () none) store auth) ∧
    ((∀ e ∈ errs, e.code ≠ some GraphQLErrorCode.UNAUTHENTICATED ∧
        e.code ≠ some GraphQLErrorCode.FORBIDDEN) →
      errorLink (some errs) networkError store auth = (store, auth)) ∧
    errorLink none (some netMsg) store auth = (store, auth) := by
  refine ⟨?_, ?_, rfl⟩
  · rintro ⟨e, he, hcode⟩
    have hauth : isAuthError errs = true := by
      simp only [isAuthError, List.any_eq_true, Bool.or_eq_true,
        decide_eq_true_eq]
      exact ⟨e, he, hcode⟩
    simp [errorLink, logoutUser, hauth]
  · intro hall
    have hauth : isAuthError errs = false := by
      simp only [isAuthError, List.any_eq_false, Bool.or_eq_true,
        decide_eq_true_eq]
      intro e he
      have h := hall e he
      simp [h.1, h.2]
    simp [errorLink, hauth]

/-- C3 witness: teardown on an UNAUTHENTICATED-coded error, no change on a
BAD_USER_INPUT-coded error or a pure network error. -/
theorem errorLink_teardown_app :
    errorLink (some [{ message := "no access", code := some "UNAUTHENTICATED" }])
        none sampleStore sampleAuth =
      logoutUser (ApolloOutcome.resolved () none) sampleStore sampleAuth ∧
    errorLink (some [sampleGraphQLError]) none sampleStore sampleAuth =
      (sampleStore, sampleAuth) ∧
    errorLink none (some "Failed to fetch") sampleStore sampleAuth =
      (sampleStore, sampleAuth) :=
  ⟨(errorLink_teardown_exactly_on_auth_codes
      [{ message := "no access", code := some "UNAUTHENTICATED" }]
      none "Failed to fetch" sampleStore sampleAuth).1 (by decide),
   (errorLink_teardown_exactly_on_auth_codes [sampleGraphQLError]
      none "Failed to fetch" sampleStore sampleAuth).2.1 (by decide),
   (errorLink_teardown_exactly_on_auth_codes [sampleGraphQLError]
      none "Failed to fetch" sampleStore sampleAuth).2.2⟩

/-- C4: a login rejected at the application level (non-empty GraphQL error
array) ends with status ERROR and an INVALID_CREDENTIALS error, with the
token store and the user field unchanged; a transport-level failure ends
with a NETWORK_ERROR, the token store and user likewise unchanged. -/
theorem loginUser_failure_frame (data : AuthPayload) (e : GraphQLError)
    (rest : List GraphQLError) (message : String) (store : TokenStore)
    (auth : AuthState) :
    ((loginUser (ApolloOutcome.resolved data (some (e :: rest))) store auth).store =
        store ∧
     (loginUser (ApolloOutcome.resolved data (some (e :: rest))) store auth).auth.status =
        AuthStatus.ERROR ∧
     (loginUser (ApolloOutcome.resolved data (some (e :: rest))) store auth).auth.error =
        some { type := AuthErrorType.INVALID_CREDENTIALS, message := e.message } ∧
     (loginUser (ApolloOutcome.resolved data (some (e :: rest))) store auth).auth.user =
        auth.user) ∧
    ((loginUser (ApolloOutcome.thrown message) store auth).store = store ∧
     (loginUser (ApolloOutcome.thrown message) store auth).auth.status =
        AuthStatus.ERROR ∧
     (loginUser (ApolloOutcome.thrown message) store auth).auth.error =
        some { type := AuthErrorType.NETWORK_ERROR,
               message := jsMessageOr message "Login failed" } ∧
     (loginUser (ApolloOutcome.thrown message) store auth).auth.user = auth.user) := by
  have hc : hasErrors (some (e :: rest)) = true := by
    simp [hasErrors]
  refine ⟨?_, ?_⟩ <;>
    simp [loginUser, hc, firstErrorMessage, setError, setStatus]

/-- Frame condition shared by the C5 failure modes: the thunk only recorded
an error — token store and the user/token fields of the session are
unchanged, status is ERROR, an error is present. -/
abbrev errorOnlyOutcome (store : TokenStore) (auth : AuthState)
    (r : ThunkResult User) : Prop :=
  r.store = store ∧ r.auth.user = auth.user ∧
  r.auth.accessToken = auth.accessToken ∧
  r.auth.refreshToken = auth.refreshToken ∧
  r.auth.status = AuthStatus.ERROR ∧ (r.auth.error).isSome = true

/-- C5: a failed login or register attempt (application-level rejection or
transport failure) started from an authenticated session modifies only the
error and status fields: user and both token fields of the session and every
token-store slot keep their pre-call values, and in particular the user is
still non-null — the session is not ended by the failed attempt. -/
theorem failedAttempt_keeps_existing_session (data : AuthPayload)
    (e : GraphQLError) (rest : List GraphQLError) (message : String)
    (store : TokenStore) (auth : AuthState)
    (h : selectIsAuthenticated auth = true) :
    (errorOnlyOutcome store auth
        (loginUser (ApolloOutcome.resolved data (some (e :: rest))) store auth) ∧
     errorOnlyOutcome store auth
        (loginUser (ApolloOutcome.thrown message) store auth) ∧
     errorOnlyOutcome store auth
        (registerUser (ApolloOutcome.resolved data (some (e :: rest))) store auth) ∧
     errorOnlyOutcome store auth
        (registerUser (ApolloOutcome.thrown message) store auth)) ∧
    (loginUser (ApolloOutcome.resolved data (some (e :: rest))) store auth).auth.user ≠
        none ∧
    (loginUser (ApolloOutcome.thrown message) store auth).auth.user ≠ none ∧
    (registerUser (ApolloOutcome.resolved data (some (e :: rest))) store auth).auth.user ≠
        none ∧
    (registerUser (ApolloOutcome.thrown message) store auth).auth.user ≠ none := by
  have huser : auth.user ≠ none := by
    simp only [selectIsAuthenticated, Bool.and_eq_true, decide_eq_true_eq] at h
    intro hn
    rw [hn] at h
    simp at h
  have hc : hasErrors (some (e :: rest)) = true := by
    simp [hasErrors]
  refine ⟨⟨?_, ?_, ?_, ?_⟩, ?_, ?_, ?_, ?_⟩ <;>
    simp [errorOnlyOutcome, loginUser, registerUser, hc, firstErrorMessage,
      setError, setStatus, huser]

/-- C5 witness: applied at an authenticated sample session and a thrown
login mutation. -/
theorem failedAttempt_keeps_app :
    selectIsAuthenticated sampleAuth = true ∧
    (loginUser (ApolloOutcome.thrown "Failed to fetch") sampleStore
        sampleAuth).auth.user ≠ none :=
  ⟨by decide,
   (failedAttempt_keeps_existing_session samplePayload sampleGraphQLError []
      "Failed to fetch" sampleStore sampleAuth (by decide)).2.2.1⟩

/-- C6: a successful register call (no GraphQL errors) ends with status
explicitly set to UNAUTHENTICATED, leaves the session's user and token
fields at their previous values, writes nothing to the token store, and
returns the created user for confirmation only. -/
theorem registerUser_success_not_authenticated (data : AuthPayload)
    (errors : Option (List GraphQLError)) (store : TokenStore)
    (auth : AuthState) (h : hasErrors errors = false) :
    (registerUser (ApolloOutcome.resolved data errors) store auth).store = store ∧
    (registerUser (ApolloOutcome.resolved data errors) store auth).auth.status =
      AuthStatus.UNAUTHENTICATED ∧
    (registerUser (ApolloOutcome.resolved data errors) store auth).auth.user =
      auth.user ∧
    (registerUser (ApolloOutcome.resolved data errors) store auth).auth.accessToken =
      auth.accessToken ∧
    (registerUser (ApolloOutcome.resolved data errors) store auth).auth.refreshToken =
      auth.refreshToken ∧
    (registerUser (ApolloOutcome.resolved data errors) store auth).value =
      Except.ok data.user := by
  simp [registerUser, setStatus, h]

/-- C6 witness: a successful register from the initial state. -/
theorem registerUser_success_app :
    hasErrors none = false ∧
    (registerUser (ApolloOutcome.resolved samplePayload none) sampleStore
        initialState).auth.status = AuthStatus.UNAUTHENTICATED :=
  ⟨rfl,
   (registerUser_success_not_authenticated samplePayload none sampleStore
      initialState rfl).2.1⟩

/-- C7: when the token store holds no access token, `initializeAuth` sets
status UNAUTHENTICATED and stops — zero Apollo calls are made, the token
store and every other auth-state field are unchanged, and `null` is
returned. -/
theorem initializeAuth_no_token_stops (meOutcome : ApolloOutcome User)
    (store : TokenStore) (auth : AuthState) (h : getAccessToken store = none) :
    (initializeAuth meOutcome store auth).store = store ∧
    (initializeAuth meOutcome store auth).networkCalls = 0 ∧
    (initializeAuth meOutcome store auth).auth.status =
      AuthStatus.UNAUTHENTICATED ∧
    (initializeAuth meOutcome store auth).auth.user = auth.user ∧
    (initializeAuth meOutcome store auth).auth.accessToken = auth.accessToken ∧
    (initializeAuth meOutcome store auth).auth.refreshToken = auth.refreshToken ∧
    (initializeAuth meOutcome store auth).auth.error = auth.error ∧
    (initializeAuth meOutcome store auth).value = none := by
  simp [initializeAuth, jsTruthy, setStatus, h]

/-- C7 witness: initialization from an empty token store. -/
theorem initializeAuth_no_token_app :
    getAccessToken emptyStore = none ∧
    (initializeAuth (ApolloOutcome.thrown "x") emptyStore
        initialState).networkCalls = 0 :=
  ⟨rfl,
   (initializeAuth_no_token_stops (ApolloOutcome.thrown "x") emptyStore
      initialState rfl).2.1⟩

/-- C8: `isTokenExpired` returns true when the decoded numeric expiry claim
is in the past (milliseconds against `Date.now()`), false when it is in the
future, and true for every string whose payload fails to decode
(fail-closed). -/
theorem isTokenExpired_fail_closed (e now : Int) :
    (e * 1000 < now →
      isTokenExpired (PayloadDecode.success (some e)) now = true) ∧
    (now < e * 1000 →
      isTokenExpired (PayloadDecode.success (some e)) now = false) ∧
    isTokenExpired PayloadDecode.failure now = true := by
  refine ⟨?_, ?_, rfl⟩ <;> intro h <;>
    simp [isTokenExpired, jsGe, jsTimes1000] <;> omega

/-- C8 witness: a past and a future expiry claim against a fixed clock. -/
theorem isTokenExpired_app :
    ((1 : Int) * 1000 < 1700000000000 ∧
      isTokenExpired (PayloadDecode.success (some 1)) 1700000000000 = true) ∧
    ((1700000000000 : Int) < 99999999999 * 1000 ∧
      isTokenExpired (PayloadDecode.success (some 99999999999)) 1700000000000 =
        false) :=
  ⟨⟨by norm_num, (isTokenExpired_fail_closed 1 1700000000000).1 (by norm_num)⟩,
   ⟨by norm_num,
    (isTokenExpired_fail_closed 99999999999 1700000000000).2.1 (by norm_num)⟩⟩

/-- Setting a header and reading it back yields the written value. -/
theorem getHeader_setHeader_self (headers : List (String × String))
    (k v : String) : getHeader (setHeader headers k v) k = some v := by
  have hnone :
      (headers.filter (fun p => p.1 ≠ k)).find? (fun p => p.1 = k) = none := by
    rw [List.find?_eq_none]
    intro x hx
    have hmem := (List.mem_filter.mp hx).2
    simp only [decide_eq_true_eq] at hmem ⊢
    simpa using hmem
  simp [getHeader, setHeader, List.find?_append, hnone, List.find?]

/-- A non-empty stored string is truthy under the JS `if (token)` test. -/
theorem jsTruthy_of_ne_empty (t : String) (h : t ≠ "") :
    jsTruthy (some t) = true := by
  cases hE : t.isEmpty with
  | false => simp [jsTruthy, hE]
  | true => exact absurd ((String.isEmpty_iff t).mp hE) h

/-- C9 counterexample: with an empty-string access token stored, the slot is
non-null yet `authLink` attaches no authorization header — the claimed
"attached iff non-null" biconditional fails (the code's truthiness check
also rules out an empty bearer credential, which the claim itself
requires). -/
theorem authLink_empty_token_counterexample :
    (getAccessToken
        { accessToken := some "", refreshToken := none, userData := none }).isSome =
      true ∧
    getHeader
        (authLink { accessToken := some "", refreshToken := none, userData := none }
          []) "authorization" = none :=
  ⟨rfl, rfl⟩

/-- C9 (amended): the `Authorization: Bearer` header is attached iff the
token store holds a non-null, non-empty access token; when the stored token
is null or the empty string the headers pass through unchanged; and the
attached credential is never the bare `Bearer ` placeholder. -/
theorem authLink_header_iff_nonempty_token (store : TokenStore)
    (headers : List (String × String))
    (hclean : ∀ p ∈ headers, p.1 ≠ "authorization") :
    (∀ t, getAccessToken store = some t → t ≠ "" →
      getHeader (authLink store headers) "authorization" =
        some ("Bearer " ++ t)) ∧
    (getAccessToken store = none → authLink store headers = headers) ∧
    (getAccessToken store = some "" → authLink store headers = headers) ∧
    (∀ v, getHeader (authLink store headers) "authorization" = some v →
      v ≠ "Bearer ") := by
  have hfind : headers.find? (fun p => p.1 = "authorization") = none := by
    rw [List.find?_eq_none]
    intro x hx
    simpa using hclean x hx
  have hnoneHeaders : getHeader headers "authorization" = none := by
    simp [getHeader, hfind]
  have happend : ∀ t : String, t ≠ "" → "Bearer " ++ t ≠ "Bearer " := by
    intro t ht hcontr
    apply ht
    have hlen : ("Bearer " ++ t).length = ("Bearer " : String).length := by
      rw [hcontr]
    rw [String.length_append] at hlen
    have h0 : t.length = 0 := by omega
    cases t with
    | mk data =>
      cases data with
      | nil => rfl
      | cons c cs => simp [String.length] at h0
  refine ⟨?_, ?_, ?_, ?_⟩
  · intro t ht hne
    have htr : jsTruthy (some t) = true := jsTruthy_of_ne_empty t hne
    simp [authLink, ht, htr, getHeader_setHeader_self]
  · intro hnone
    simp [authLink, hnone, jsTruthy]
  · intro hsome
    have : jsTruthy (some "") = false := rfl
    simp [authLink, hsome, this]
  · intro v hv
    cases hg : getAccessToken store with
    | none =>
      rw [authLink] at hv
      rw [hg] at hv
      simp [jsTruthy, hnoneHeaders] at hv
    | some t =>
      by_cases hempty : t = ""
      · subst hempty
        rw [authLink] at hv
        rw [hg] at hv
        have : jsTruthy (some "") = false := rfl
        rw [this] at hv
        simp [hnoneHeaders] at hv
      · have htr : jsTruthy (some t) = true := jsTruthy_of_ne_empty t hempty
        rw [authLink] at hv
        rw [hg] at hv
        rw [htr] at hv
        simp [getHeader_setHeader_self] at hv
        rw [← hv]
        exact happend t hempty

/-- C9 witness: a non-empty stored token yields a bearer header; a null
stored token passes the headers through. -/
theorem authLink_header_app :
    getAccessToken sampleStore = some "tok" ∧
    getHeader (authLink sampleStore []) "authorization" = some "Bearer tok" ∧
    authLink emptyStore [] = [] :=
  ⟨rfl,
   by
     have h := (authLink_header_iff_nonempty_token sampleStore []
        (by simp)).1 "tok" rfl (by decide)
     rw [h]
     decide,
   (authLink_header_iff_nonempty_token emptyStore [] (by simp)).2.1 rfl⟩

/-- C10: a structurally valid token whose decoded payload lacks a numeric
`exp` claim is never reported expired: `exp * 1000` evaluates to NaN, the
`Date.now() >= NaN` comparison is false, and no exception reaches the
`catch`, so `isTokenExpired` returns false for every current time. -/
theorem isTokenExpired_no_exp_claim (now : Int) :
    isTokenExpired (PayloadDecode.success none) now = false := rfl

end ShopStore
